import Mathlib

/-!
Shallow embedding of `src/src/utils/utils.py` (module `utils.utils` of the
repository): the `Timing` context manager, the `GlobalCounters` static
counters and the `Profiling` context manager.

Conventions of the embedding:
* Python ints are `Int` (or `Nat` where the source value is a count),
  Python floats are `ℚ` (exact rational arithmetic stands in for IEEE-754;
  none of the verified properties depends on binary rounding).
* The wall clock (`time.perf_counter_ns`) is an explicit `Nat` argument in
  nanoseconds.
* The external profiling engine (`cProfile` + the `strip_dirs()` step of
  `pstats`) is modelled as an explicit input: the list of per-function
  records it captured during the scope.  The parts of `pstats` the module
  itself drives (`sort_stats`, `print_stats`, the `stats` mapping read by
  `to_dataframe`) are embedded below from the documented stdlib semantics.
* Printing to stdout and writing the dump file are modelled as data
  returned by the scope-exit function (`ExitEffects`), `None` meaning the
  corresponding side effect did not happen.
* Fallible operations return `Except PyError`.
-/

/-- Python exceptions raised by the modelled code paths. -/
inductive PyError where
  /-- `ValueError(msg)` -/
  | valueError (msg : String) : PyError
  /-- `ZeroDivisionError` (float division by zero) -/
  | zeroDivision : PyError
deriving DecidableEq

/-- Python `int(q)` on a float: truncation toward zero. -/
def pyInt (q : ℚ) : Int :=
  if 0 ≤ q then ⌊q⌋ else ⌈q⌉

/-- Python list slicing `l[:n]` with an `int` bound `n` (also the semantics
of `pandas.DataFrame.head(n)`): a nonnegative `n` keeps the first `n`
elements, a negative `n` drops the last `-n` elements. -/
def pySlice {α : Type} (n : Int) (l : List α) : List α :=
  if 0 ≤ n then l.take n.toNat else l.take (l.length - (-n).toNat)

/-! ## Timing (`utils.py` lines 10-29) -/

/-- `Timing` instance state.  The Python attribute `prefix` is called `pfx`
here (the original identifier is not usable in this development); `on_exit`
is an arbitrary caller-supplied callback value of type `C`, stored and
never called.  `st`/`et` are the nanosecond timestamps set by the scope
protocol (absent before entry in Python; defaulted to 0 here). -/
structure Timing (C : Type) where
  pfx : String
  on_exit : Option C
  enabled : Bool
  st : Nat
  et : Nat

/-- `Timing.__init__(prefix="", on_exit=None, enabled=True)`. -/
def Timing.init {C : Type} (pfx : String) (on_exit : Option C) (enabled : Bool) :
    Timing C :=
  { pfx := pfx, on_exit := on_exit, enabled := enabled, st := 0, et := 0 }

/-- `Timing.__enter__`: records `time.perf_counter_ns()` in `self.st`; the
Python method body has no `return`, so the context value bound by
`with ... as t` is `None` (modelled as the second component `none`). -/
def Timing.enter {C : Type} (t : Timing C) (now : Nat) : Timing C × Option (Timing C) :=
  ({ t with st := now }, none)

/-- Left pad with spaces to width 6, for the `:6.2f` format spec. -/
def padLeft6 (s : String) : String :=
  if s.length < 6 then String.mk (List.replicate (6 - s.length) ' ') ++ s else s

/-- Render a number of hundredths (of a millisecond) as a fixed-point
string with exactly two decimal places, right-aligned to width 6. -/
def format6p2 (centi : Nat) : String :=
  padLeft6 (toString (centi / 100) ++ "." ++
    (if centi % 100 < 10 then "0" else "") ++ toString (centi % 100))

/-- The elapsed nanoseconds rounded to hundredths of a millisecond, for
`f"{et*1e-6:6.2f}"`.  (The source rounds the binary float `et*1e-6` to two
decimals; this is abstracted to exact decimal rounding, half away from
zero, of `ns / 10^4`.) -/
def nsToCenti (ns : Nat) : Nat := (ns + 5000) / 10000

/-- The line `f"{self.prefix}{self.et*1e-6:6.2f} ms"` printed on exit. -/
def timingLine (pfx : String) (ns : Nat) : String :=
  pfx ++ format6p2 (nsToCenti ns) ++ " ms"

/-- `Timing.__exit__`: sets `self.et` to the elapsed nanoseconds and, when
`enabled`, prints the formatted line (second component `some line`; `none`
means nothing was printed). -/
def Timing.exit {C : Type} (t : Timing C) (now : Nat) : Timing C × Option String :=
  let t' := { t with et := now - t.st }
  (t', if t.enabled then some (timingLine t.pfx (now - t.st)) else none)

/-- One whole scope use of a `Timing`: entry at clock `t1`, exit at clock
`t2`.  Returns the final instance state and the optional printed line. -/
def Timing.scope {C : Type} (t : Timing C) (t1 t2 : Nat) : Timing C × Option String :=
  (Timing.exit (Timing.enter t t1).1 t2)

/-! ## GlobalCounters (`utils.py` lines 32-56) -/

/-- The three class-level counters of `GlobalCounters`. -/
structure GlobalCounters where
  global_ops : Int
  global_mem : Int
  time_sum_s : ℚ
deriving DecidableEq

/-- `GlobalCounters.reset()`: sets all three counters to zero, whatever
their prior values. -/
def GlobalCounters.reset (_ : GlobalCounters) : GlobalCounters :=
  { global_ops := 0, global_mem := 0, time_sum_s := 0 }

/-! ## Profiling (`utils.py` lines 58-141) -/

/-- A `cProfile` function key `(filename, lineno, name)`, as found after
`strip_dirs()`. -/
structure FuncKey where
  filename : String
  lineno : Nat
  name : String
deriving DecidableEq

/-- One entry of the `pstats` `stats` mapping: the function key together
with `(primitive_calls, total_calls, tottime, cumtime)`.  The `callers`
sub-mapping is never read by the module and is omitted. -/
structure FuncStat where
  func : FuncKey
  primitive_calls : Nat
  total_calls : Nat
  tottime : ℚ
  cumtime : ℚ
deriving DecidableEq

/-- Ordering used by `pstats.sort_stats` for the keys the module's callers
use: `tottime` sorts by self time descending, any other key (the default
`cumtime` in particular) by cumulative time descending.  Only the length
of the resulting list matters to the verified properties. -/
def statOrder (sortKey : String) (a b : FuncStat) : Prop :=
  if sortKey = "tottime" then b.tottime ≤ a.tottime else b.cumtime ≤ a.cumtime

instance (sortKey : String) : DecidableRel (statOrder sortKey) := by
  intro a b
  unfold statOrder
  infer_instance

/-- The state held in `self.stats_data` after a successful capture: the
`stats` mapping (as the list of its entries) and the sorted `fcn_list`
produced by `sort_stats`. -/
structure StatsData where
  stats : List FuncStat
  fcn_list : List FuncKey
deriving DecidableEq

/-- `pstats.Stats(pr).strip_dirs().sort_stats(sort)`: keeps the captured
entries and computes the sorted function list. -/
def makeStatsData (sortKey : String) (captured : List FuncStat) : StatsData :=
  { stats := captured,
    fcn_list := (List.insertionSort (statOrder sortKey) captured).map (·.func) }

/-- Number of entries `pstats.Stats.print_stats(sel)` prints for an integer
restriction `sel`: per `pstats.eval_print_amount`, the list is truncated to
`sel` entries only when `0 <= sel < len(list)`; otherwise the whole list is
printed. -/
def printCount (sel : Int) (total : Nat) : Nat :=
  if 0 ≤ sel ∧ sel < (total : Int) then sel.toNat else total

/-- `Profiling` instance state (`__init__`, lines 84-99).  `rank` is a
Python int, `frac` and `time_scale` floats, `fn` the optional dump path
(`None` ↔ `none`), `stats_data` the capture populated at scope exit. -/
structure Profiling where
  enabled : Bool
  sort : String
  rank : Int
  frac : ℚ
  fn : Option String
  time_scale : ℚ
  stats_data : Option StatsData
deriving DecidableEq

/-- `Profiling.__init__(enabled, sort, rank, frac, fn, ts)`: computes
`self.time_scale = 1e3 / ts` eagerly (a `ZeroDivisionError` when `ts = 0`)
and initialises `stats_data` to `None`. -/
def Profiling.init (enabled : Bool) (sort : String) (rank : Int) (frac : ℚ)
    (fn : Option String) (ts : ℚ) : Except PyError Profiling :=
  if ts = 0 then .error .zeroDivision
  else .ok { enabled := enabled, sort := sort, rank := rank, frac := frac,
             fn := fn, time_scale := 1000 / ts, stats_data := none }

/-- `Profiling.__enter__`: creates the `cProfile.Profile` and enables it
when `self.enabled` (external engine, not part of the instance state here)
and returns `self`, so `with Profiling(...) as prof` binds the instance
itself — also when disabled. -/
def Profiling.enter (p : Profiling) : Profiling × Option Profiling :=
  (p, some p)

/-- The observable side effects of `Profiling.__exit__`: the dump-file path
written (if any) and the number of entries printed by `print_stats`
(`none` when `print_stats` was not called at all). -/
structure ExitEffects where
  dumped : Option String
  printed : Option Nat
deriving DecidableEq

/-- `Profiling.__exit__` (lines 107-117), with `captured` the per-function
records the external engine collected during the scope.  When enabled:
dump to `self.fn` if that is truthy (a non-empty path), store the sorted
statistics in `self.stats_data`, and print the top
`min(self.rank, int(len(func_list) * self.frac))` entries.  When disabled:
no effect at all. -/
def Profiling.exit (p : Profiling) (captured : List FuncStat) :
    Profiling × ExitEffects :=
  if p.enabled then
    let dumped : Option String :=
      match p.fn with
      | some s => if s = "" then none else some s
      | none => none
    let sd := makeStatsData p.sort captured
    let limit : Int := pyInt ((sd.fcn_list.length : ℚ) * p.frac)
    ({ p with stats_data := some sd },
     { dumped := dumped,
       printed := some (printCount (min p.rank limit) sd.fcn_list.length) })
  else (p, { dumped := none, printed := none })

/-- One row of the exported table (the dict appended per function in
`to_dataframe`). -/
structure Row where
  function : String
  primitive_calls : Nat
  total_calls : Nat
  tottime_ms : ℚ
  cumtime_ms : ℚ
deriving DecidableEq

/-- The row built for one stats entry: qualified name
`f"{func[2]} ({func[0]}:{func[1]})"` and the times scaled by
`self.time_scale`. -/
def rowOf (time_scale : ℚ) (fs : FuncStat) : Row :=
  { function := fs.func.name ++ " (" ++ fs.func.filename ++ ":" ++
      toString fs.func.lineno ++ ")",
    primitive_calls := fs.primitive_calls,
    total_calls := fs.total_calls,
    tottime_ms := fs.tottime * time_scale,
    cumtime_ms := fs.cumtime * time_scale }

/-- The sort key of `df.sort_values(by="cumtime_ms", ascending=False)`:
row `a` may precede row `b` when its cumulative time is at least `b`'s. -/
def rowGE (a b : Row) : Prop := b.cumtime_ms ≤ a.cumtime_ms

instance : DecidableRel rowGE := by
  intro a b
  unfold rowGE
  infer_instance

instance : IsTotal Row rowGE := ⟨fun a b => le_total b.cumtime_ms a.cumtime_ms⟩

instance : IsTrans Row rowGE := ⟨fun _ _ _ h1 h2 => le_trans h2 h1⟩

/-- The Spanish `ValueError` message raised when no capture is present. -/
def noDataMsg : String :=
  "No se encontraron datos de profiling. Asegúrate de ejecutar el bloque con el contexto de Profiling activo."

/-- `Profiling.to_dataframe` (lines 119-141): errors when `stats_data` is
`None`; otherwise builds one row per stats entry, sorts by `cumtime_ms`
descending and returns the first `rank` rows (`df.head(self.rank)`).  The
method reads but never writes the instance, so the (unchanged) instance is
returned alongside the rows. -/
def Profiling.to_dataframe (p : Profiling) : Except PyError (List Row × Profiling) :=
  match p.stats_data with
  | none => .error (.valueError noDataMsg)
  | some sd =>
      let rows := sd.stats.map (rowOf p.time_scale)
      .ok (pySlice p.rank (List.insertionSort rowGE rows), p)

/-- The console-print row restriction computed at scope exit (lines
114-117): `min(self.rank, int(total * frac))`. -/
def printSel (total : Nat) (rank : Int) (frac : ℚ) : Int :=
  min rank (pyInt ((total : ℚ) * frac))

/-! ## Example instances used by the witnesses -/

/-- A sample captured per-function record. -/
def exFunc : FuncStat :=
  { func := { filename := "utils.py", lineno := 10, name := "f" },
    primitive_calls := 1, total_calls := 1, tottime := 1/2, cumtime := 3/4 }

/-- A disabled `Profiling` as produced by
`Profiling.init false "cumtime" 10 1 none 1`. -/
def exProfDisabled : Profiling :=
  { enabled := false, sort := "cumtime", rank := 10, frac := 1, fn := none,
    time_scale := 1000, stats_data := none }

/-- An enabled `Profiling` configured with a dump path, before its scope. -/
def exProfEnabled : Profiling :=
  { enabled := true, sort := "cumtime", rank := 5, frac := 1/2,
    fn := some "out.prof", time_scale := 1000, stats_data := none }

/-- An enabled `Profiling` after a completed capture of one function. -/
def exProfDone : Profiling :=
  { enabled := true, sort := "cumtime", rank := 10, frac := 1, fn := none,
    time_scale := 1000, stats_data := some (makeStatsData "cumtime" [exFunc]) }

/-- A capture of 100 functions. -/
def exStats100 : List FuncStat := List.replicate 100 exFunc

/-- An enabled `Profiling` with `rank = 5`, `frac = 0.01` after capturing
100 functions. -/
def exProf100 : Profiling :=
  { enabled := true, sort := "cumtime", rank := 5, frac := 1/100, fn := none,
    time_scale := 1000, stats_data := some (makeStatsData "cumtime" exStats100) }

/-! ## Shared helper lemmas -/

/-- `print_stats` prints exactly `sel` entries whenever `0 ≤ sel ≤ total`. -/
theorem printCount_eq_toNat {sel : Int} {total : Nat} (h0 : 0 ≤ sel)
    (h1 : sel ≤ (total : Int)) : printCount sel total = sel.toNat := by
  unfold printCount
  by_cases h : sel < (total : Int)
  · simp [h0, h]
  · have he : sel = (total : Int) := le_antisymm h1 (not_lt.mp h)
    simp [he]

/-- The sorted function list has one entry per captured function. -/
theorem fcn_list_length (sortKey : String) (captured : List FuncStat) :
    (makeStatsData sortKey captured).fcn_list.length = captured.length := by
  simp [makeStatsData]

/-- Successful export: the rows are the per-entry rows sorted by
cumulative time descending and cut to the first `rank`. -/
theorem to_dataframe_ok (p : Profiling) (sd : StatsData)
    (hsd : p.stats_data = some sd) :
    p.to_dataframe = .ok
      (pySlice p.rank (List.insertionSort rowGE (sd.stats.map (rowOf p.time_scale))), p) := by
  simp [Profiling.to_dataframe, hsd]

/-- Row count of a successful export with a nonnegative `rank`. -/
theorem to_dataframe_length (p : Profiling) (sd : StatsData)
    (hsd : p.stats_data = some sd) (hr : 0 ≤ p.rank) :
    ∃ res, p.to_dataframe = .ok (res, p) ∧
      res.length = min p.rank.toNat sd.stats.length := by
  refine ⟨_, to_dataframe_ok p sd hsd, ?_⟩
  simp [pySlice, hr]

/-! ## Claim theorems -/

/-- C5: for every prior state of the three counters, `GlobalCounters.reset()`
leaves `global_ops = 0`, `global_mem = 0` and `time_sum_s = 0.0`. -/
theorem reset_zeroes (c : GlobalCounters) :
    (GlobalCounters.reset c).global_ops = 0 ∧
    (GlobalCounters.reset c).global_mem = 0 ∧
    (GlobalCounters.reset c).time_sum_s = 0 :=
  ⟨rfl, rfl, rfl⟩

/-- C6: a disabled `Timing` scope prints nothing but still computes the
elapsed time; an enabled one prints exactly one line
`prefix ++ <elapsed ms, width 6, 2 decimals> ++ " ms"` on scope exit. -/
theorem timing_scope_output {C : Type} (t : Timing C) (t1 t2 : Nat) :
    (t.enabled = false →
      (Timing.scope t t1 t2).2 = none ∧ (Timing.scope t t1 t2).1.et = t2 - t1) ∧
    (t.enabled = true →
      (Timing.scope t t1 t2).2 = some (timingLine t.pfx (t2 - t1))) := by
  constructor
  · intro h
    simp [Timing.scope, Timing.enter, Timing.exit, h]
  · intro h
    simp [Timing.scope, Timing.enter, Timing.exit, h]

/-- Witness for C6 at a concrete enabled and a concrete disabled instance. -/
theorem timing_scope_output_witness :
    (Timing.scope (Timing.init "t " (none : Option Unit) true) 0 1500000).2
        = some (timingLine "t " 1500000) ∧
    (Timing.scope (Timing.init "t " (none : Option Unit) false) 0 1500000).2
        = none :=
  ⟨(timing_scope_output _ 0 1500000).2 rfl,
   ((timing_scope_output _ 0 1500000).1 rfl).1⟩

/-- C8: `on_exit` is stored but never invoked — a whole scope use prints
the same output and reaches the same state (apart from the stored field
itself) for any two `on_exit` values. -/
theorem on_exit_inert {C : Type} (t : Timing C) (o1 o2 : Option C) (t1 t2 : Nat) :
    (Timing.scope { t with on_exit := o1 } t1 t2).2
        = (Timing.scope { t with on_exit := o2 } t1 t2).2 ∧
    { (Timing.scope { t with on_exit := o1 } t1 t2).1 with on_exit := o2 }
        = (Timing.scope { t with on_exit := o2 } t1 t2).1 :=
  ⟨rfl, rfl⟩

/-- C9: `Timing.__enter__` returns `None` (the `with ... as t` binding is
`None`), while `Profiling.__enter__` returns the instance itself, also
when disabled. -/
theorem enter_return_values {C : Type} (t : Timing C) (now : Nat) (p : Profiling) :
    (Timing.enter t now).2 = none ∧ (Profiling.enter p).2 = some p :=
  ⟨rfl, rfl⟩

/-- C10: constructing a `Profiling` with `ts = 0` raises
`ZeroDivisionError` already in the constructor; any `ts ≠ 0` succeeds,
with `time_scale = 1000 / ts`. -/
theorem init_ts_zero (e : Bool) (s : String) (r : Int) (f : ℚ)
    (fn : Option String) (ts : ℚ) :
    Profiling.init e s r f fn 0 = .error .zeroDivision ∧
    (ts ≠ 0 → ∃ p, Profiling.init e s r f fn ts = .ok p ∧
      p.time_scale = 1000 / ts) := by
  constructor
  · simp [Profiling.init]
  · intro h
    refine ⟨{ enabled := e, sort := s, rank := r, frac := f, fn := fn,
              time_scale := 1000 / ts, stats_data := none }, ?_, rfl⟩
    simp [Profiling.init, h]

/-- Witness for C10 at `ts = 2`. -/
theorem init_ts_zero_witness :
    ∃ p, Profiling.init true "cumtime" 10 1 none 2 = .ok p ∧
      p.time_scale = 1000 / 2 :=
  (init_ts_zero true "cumtime" 10 1 none 2).2 (by norm_num)

/-- C1: on an enabled scope exit the number of printed entries is
`min(rank, floor(total * frac))` (for the configured ranges
`rank ≥ 0`, `0 ≤ frac ≤ 1`), the raw statistics are dumped to `fn` when
given, and the capture is stored; a disabled exit does nothing at all. -/
theorem profiling_exit_spec (p : Profiling) (captured : List FuncStat)
    (hr : 0 ≤ p.rank) (hf0 : 0 ≤ p.frac) (hf1 : p.frac ≤ 1) :
    (p.enabled = true →
      (Profiling.exit p captured).2.printed
          = some (min p.rank ⌊(captured.length : ℚ) * p.frac⌋).toNat ∧
      (∀ s, p.fn = some s → s ≠ "" →
        (Profiling.exit p captured).2.dumped = some s) ∧
      (p.fn = none → (Profiling.exit p captured).2.dumped = none) ∧
      (Profiling.exit p captured).1.stats_data
          = some (makeStatsData p.sort captured)) ∧
    (p.enabled = false → Profiling.exit p captured = (p, ⟨none, none⟩)) := by
  have hlen := fcn_list_length p.sort captured
  have hq : (0:ℚ) ≤ (captured.length : ℚ) * p.frac :=
    mul_nonneg (by positivity) hf0
  have hpy : pyInt ((captured.length : ℚ) * p.frac)
      = ⌊(captured.length : ℚ) * p.frac⌋ := if_pos hq
  have hfl : ⌊(captured.length : ℚ) * p.frac⌋ ≤ (captured.length : Int) := by
    have h1 : (captured.length : ℚ) * p.frac ≤ (((captured.length : Int)) : ℚ) := by
      push_cast
      exact mul_le_of_le_one_right (by positivity) hf1
    calc ⌊(captured.length : ℚ) * p.frac⌋
        ≤ ⌊(((captured.length : Int)) : ℚ)⌋ := Int.floor_le_floor h1
      _ = (captured.length : Int) := Int.floor_intCast _
  have hsel0 : 0 ≤ min p.rank ⌊(captured.length : ℚ) * p.frac⌋ :=
    le_min hr (Int.floor_nonneg.mpr hq)
  have hsel1 : min p.rank ⌊(captured.length : ℚ) * p.frac⌋ ≤ (captured.length : Int) :=
    le_trans (min_le_right _ _) hfl
  constructor
  · intro hen
    refine ⟨?_, ?_, ?_, ?_⟩
    · simp only [Profiling.exit, hen, if_true]
      rw [hlen, hpy, printCount_eq_toNat hsel0 hsel1]
    · intro s hs hne
      simp [Profiling.exit, hen, hs, hne]
    · intro hfn
      simp [Profiling.exit, hen, hfn]
    · simp [Profiling.exit, hen]
  · intro hen
    simp [Profiling.exit, hen]

/-- Witness for C1: three captured functions, `rank = 5`, `frac = 1/2`,
dump path `"out.prof"` — one entry printed, file written. -/
theorem profiling_exit_spec_witness :
    (Profiling.exit exProfEnabled [exFunc, exFunc, exFunc]).2.printed = some 1 ∧
    (Profiling.exit exProfEnabled [exFunc, exFunc, exFunc]).2.dumped
        = some "out.prof" := by
  have h := profiling_exit_spec exProfEnabled [exFunc, exFunc, exFunc]
      (by norm_num [exProfEnabled]) (by norm_num [exProfEnabled])
      (by norm_num [exProfEnabled])
  refine ⟨?_, (h.1 rfl).2.1 "out.prof" rfl (by decide)⟩
  rw [(h.1 rfl).1]
  norm_num [exProfEnabled]

/-- C4: `stats_data` is `None` right after construction, across scope
entry and across a disabled scope exit, and `to_dataframe` on a `None`
`stats_data` raises the usage `ValueError`; in particular a disabled
`Profiling` never populates `stats_data` and its export always fails. -/
theorem stats_data_invariant :
    (∀ e s r f fn ts p, Profiling.init e s r f fn ts = .ok p →
      p.stats_data = none) ∧
    (∀ p : Profiling, (Profiling.enter p).1.stats_data = p.stats_data) ∧
    (∀ (p : Profiling) captured, p.enabled = false →
      Profiling.exit p captured = (p, ⟨none, none⟩)) ∧
    (∀ p : Profiling, p.stats_data = none →
      p.to_dataframe = .error (.valueError noDataMsg)) ∧
    (∀ s r f fn ts p captured, Profiling.init false s r f fn ts = .ok p →
      (Profiling.exit (Profiling.enter p).1 captured).1.stats_data = none ∧
      (Profiling.exit (Profiling.enter p).1 captured).1.to_dataframe
          = .error (.valueError noDataMsg)) := by
  refine ⟨?_, ?_, ?_, ?_, ?_⟩
  · intro e s r f fn ts p h
    by_cases hts : ts = 0 <;> simp [Profiling.init, hts] at h
    subst h
    rfl
  · intro p
    rfl
  · intro p captured h
    simp [Profiling.exit, h]
  · intro p h
    simp [Profiling.to_dataframe, h]
  · intro s r f fn ts p captured h
    by_cases hts : ts = 0 <;> simp [Profiling.init, hts] at h
    subst h
    constructor <;> rfl

/-- Witness for C4: a disabled instance built by the constructor, taken
through a whole scope, keeps `stats_data = none` and its export errors. -/
theorem stats_data_invariant_witness :
    (Profiling.exit (Profiling.enter exProfDisabled).1 []).1.stats_data = none ∧
    (Profiling.exit (Profiling.enter exProfDisabled).1 []).1.to_dataframe
        = .error (.valueError noDataMsg) :=
  stats_data_invariant.2.2.2.2 "cumtime" 10 1 none 1 exProfDisabled []
    (by norm_num [Profiling.init, exProfDisabled])

/-- C7: a successful `to_dataframe` leaves the instance unchanged, and a
second call returns the identical row set. -/
theorem to_dataframe_idempotent (p : Profiling) (rows : List Row) (p' : Profiling)
    (h : p.to_dataframe = .ok (rows, p')) :
    p' = p ∧ p'.to_dataframe = .ok (rows, p') := by
  cases hsd : p.stats_data with
  | none => simp [Profiling.to_dataframe, hsd] at h
  | some sd =>
    rw [to_dataframe_ok p sd hsd] at h
    simp only [Except.ok.injEq, Prod.mk.injEq] at h
    obtain ⟨h1, h2⟩ := h
    subst h2
    subst h1
    exact ⟨rfl, to_dataframe_ok p sd hsd⟩

/-- Witness for C7 at a one-function capture. -/
theorem to_dataframe_idempotent_witness :
    exProfDone = exProfDone ∧
      Profiling.to_dataframe exProfDone = .ok ([rowOf 1000 exFunc], exProfDone) :=
  to_dataframe_idempotent exProfDone [rowOf 1000 exFunc] exProfDone rfl

/-- C2: a successful export emits one row per captured function (qualified
name, primitive and total call counts, `tottime`/`cumtime` scaled by
`time_scale`, which the constructor sets to `1000 / ts`), sorts the full
row set by `cumtime_ms` descending, and cuts to the first `rank` rows —
`frac` plays no role in the export. -/
theorem to_dataframe_spec (p : Profiling) (sd : StatsData)
    (hsd : p.stats_data = some sd) (hr : 0 ≤ p.rank) :
    ∃ res,
      p.to_dataframe = .ok (res, p) ∧
      res = pySlice p.rank
        (List.insertionSort rowGE (sd.stats.map (rowOf p.time_scale))) ∧
      List.Sorted rowGE res ∧
      res.length = min p.rank.toNat sd.stats.length ∧
      (∀ f : ℚ, Profiling.to_dataframe { p with frac := f }
          = .ok (res, { p with frac := f })) ∧
      (∀ e s r f fn ts p0, Profiling.init e s r f fn ts = .ok p0 →
        p0.time_scale = 1000 / ts) := by
  refine ⟨_, to_dataframe_ok p sd hsd, rfl, ?_, ?_, ?_, ?_⟩
  · have hs := List.sorted_insertionSort rowGE (sd.stats.map (rowOf p.time_scale))
    unfold pySlice
    rw [if_pos hr]
    exact List.Pairwise.sublist (List.take_sublist _ _) hs
  · unfold pySlice
    rw [if_pos hr]
    simp [List.length_take]
  · intro f
    have hsd' : ({ p with frac := f } : Profiling).stats_data = some sd := hsd
    rw [to_dataframe_ok { p with frac := f } sd hsd']
  · intro e s r f fn ts p0 h
    by_cases hts : ts = 0 <;> simp [Profiling.init, hts] at h
    subst h
    rfl

/-- Witness for C2 at a one-function capture with `rank = 10`. -/
theorem to_dataframe_spec_witness :
    ∃ res, Profiling.to_dataframe exProfDone = .ok (res, exProfDone) ∧
      res.length = min (Int.toNat 10) 1 := by
  obtain ⟨res, h1, _, _, h4, _, _⟩ := to_dataframe_spec exProfDone
      (makeStatsData "cumtime" [exFunc]) rfl (by decide)
  exact ⟨res, h1, h4⟩

/-- C3: the print-time restriction `min(rank, int(total * frac))` equals
the export-time restriction (`rank` alone) exactly when
`total * frac ≥ rank`; concretely, `rank = 5`, `frac = 0.01` over 100
captured functions prints `min(5, 1) = 1` entry while `to_dataframe`
still returns 5 rows. -/
theorem limits_coincide_iff (total : Nat) (rank : Int) (frac : ℚ)
    (hf : 0 ≤ frac) :
    (printSel total rank frac = rank ↔ (rank : ℚ) ≤ (total : ℚ) * frac) ∧
    printSel 100 5 (1/100) = 1 ∧
    (∀ (p : Profiling) (sd : StatsData), p.rank = 5 → p.stats_data = some sd →
      sd.stats.length = 100 →
      ∃ res, p.to_dataframe = .ok (res, p) ∧ res.length = 5) := by
  refine ⟨?_, ?_, ?_⟩
  · have hq : (0:ℚ) ≤ (total : ℚ) * frac := mul_nonneg (by positivity) hf
    unfold printSel
    rw [show pyInt ((total : ℚ) * frac) = ⌊(total : ℚ) * frac⌋ from if_pos hq]
    rw [min_eq_left_iff]
    exact Int.le_floor
  · norm_num [printSel, pyInt]
  · intro p sd hrank hsd hlen
    obtain ⟨res, h1, h2⟩ := to_dataframe_length p sd hsd (by rw [hrank]; norm_num)
    refine ⟨res, h1, ?_⟩
    rw [h2, hrank, hlen]
    rfl

/-- Witness for C3 at the spec's own example: `rank = 5`, `frac = 1/100`,
100 captured functions. -/
theorem limits_coincide_iff_witness :
    printSel 100 5 (1/100) = 1 ∧
    (∃ res, Profiling.to_dataframe exProf100 = .ok (res, exProf100) ∧
      res.length = 5) := by
  have h := limits_coincide_iff 100 5 (1/100) (by norm_num)
  exact ⟨h.2.1, h.2.2 exProf100 (makeStatsData "cumtime" exStats100) rfl rfl
    (by simp [makeStatsData, exStats100])⟩
